import Mathlib

/-! Zigbee gateway configuration header (`ESP32-H2-GW/main/esp_zb_gateway.h`).

A shallow embedding of the compile-time configuration of the gateway firmware:
the numeric constants, the two ZCL string attributes and the three static
initializer macros.  Bytes are `UInt8`, C string literals are lists of bytes
(the terminating NUL of a C literal is not part of the ZCL string, whose
reader consumes one length byte and then that many payload bytes).
-/

namespace ZbGateway

/-! ## Byte strings -/

/-- Bytes of a C string literal: the UTF-8 encoding of its characters, one
byte per ASCII character. -/
def c_chars (s : String) : List UInt8 :=
  s.toList.flatMap String.utf8EncodeChar

/-! ## Constants of the header -/

/-- Source: `#define MAX_CHILDREN 10`. -/
def MAX_CHILDREN : Nat := 10

/-- Source: `#define INSTALLCODE_POLICY_ENABLE false`. -/
def INSTALLCODE_POLICY_ENABLE : Bool := false

/-- Source: `#define HA_THERMOSTAT_ENDPOINT 1`. -/
def HA_THERMOSTAT_ENDPOINT : Nat := 1

/-- Left shift of a C `long` (32 bits on the target): the result is defined
only when the mathematical value fits the signed range. -/
def shl_long (a n : Nat) : Option Nat :=
  if n < 32 ∧ a * 2 ^ n < 2 ^ 31 then some (a * 2 ^ n) else none

/-- Source: `#define ESP_ZB_PRIMARY_CHANNEL_MASK (1l << 13)`. -/
def ESP_ZB_PRIMARY_CHANNEL_MASK : Nat := 1 <<< 13

/-- Source: `#define MANUFACTURER_NAME "\x09""ESPRESSIF"`: two adjacent
literals, the one-byte literal `\x09` and `ESPRESSIF`, concatenated. -/
def MANUFACTURER_NAME : List UInt8 := [0x09] ++ c_chars "ESPRESSIF"

/-- Source: `#define MODEL_IDENTIFIER "\x07"CONFIG_IDF_TARGET`: the one-byte
literal `\x07` followed by the build-target literal.  `CONFIG_IDF_TARGET` is
supplied by the build system and is a parameter here. -/
def MODEL_IDENTIFIER (CONFIG_IDF_TARGET : List UInt8) : List UInt8 :=
  [0x07] ++ CONFIG_IDF_TARGET

/-! ## Types of the stack library used by the initializer macros

The header includes `esp_zigbee_core.h`, which declares the enumerations and
the configuration structs; that file is not among the sources. -/

/-- Modelled from the spec: the network roles (coordinator, router,
end-device) named by `esp_zb_role`; the declaration of the enumeration is in
`esp_zigbee_core.h`, which is missing. -/
inductive esp_zb_nwk_device_type_t
  | ESP_ZB_DEVICE_TYPE_COORDINATOR
  | ESP_ZB_DEVICE_TYPE_ROUTER
  | ESP_ZB_DEVICE_TYPE_ED
  deriving DecidableEq, Repr

/-- Modelled from the spec: the radio transport selection (native radio, or a
radio reached over a UART); the declaration of the enumeration is in
`esp_zigbee_core.h`, which is missing. -/
inductive esp_zb_radio_mode_t
  | RADIO_MODE_NATIVE
  | RADIO_MODE_UART_RCP
  deriving DecidableEq, Repr

/-- Modelled from the spec: the host transport selection (no host connection,
or a host-UART connection); the declaration of the enumeration is in
`esp_zigbee_core.h`, which is missing. -/
inductive esp_zb_host_connection_mode_t
  | HOST_CONNECTION_MODE_NONE
  | HOST_CONNECTION_MODE_CLI_UART
  | HOST_CONNECTION_MODE_RCP_UART
  deriving DecidableEq, Repr

/-- The field of `nwk_cfg.zczr_cfg` that the header designates. -/
structure esp_zb_zczr_cfg_t where
  max_children : Nat
  deriving DecidableEq, Repr

/-- The member of the `nwk_cfg` union that the header designates. -/
structure esp_zb_nwk_cfg_t where
  zczr_cfg : esp_zb_zczr_cfg_t
  deriving DecidableEq, Repr

/-- The fields of the stack configuration that `ESP_ZB_ZC_CONFIG` designates. -/
structure esp_zb_cfg_t where
  esp_zb_role : esp_zb_nwk_device_type_t
  install_code_policy : Bool
  nwk_cfg : esp_zb_nwk_cfg_t
  deriving DecidableEq, Repr

/-- The field of the radio configuration that the header designates. -/
structure esp_zb_radio_config_t where
  radio_mode : esp_zb_radio_mode_t
  deriving DecidableEq, Repr

/-- The field of the host configuration that the header designates. -/
structure esp_zb_host_config_t where
  host_connection_mode : esp_zb_host_connection_mode_t
  deriving DecidableEq, Repr

/-! ## Initializer macros of the header -/

/-- Source: `#define ESP_ZB_ZC_CONFIG()`. -/
def ESP_ZB_ZC_CONFIG : esp_zb_cfg_t :=
  { esp_zb_role := .ESP_ZB_DEVICE_TYPE_COORDINATOR
    install_code_policy := INSTALLCODE_POLICY_ENABLE
    nwk_cfg := { zczr_cfg := { max_children := MAX_CHILDREN } } }

/-- Source: `#define ESP_ZB_DEFAULT_RADIO_CONFIG()`. -/
def ESP_ZB_DEFAULT_RADIO_CONFIG : esp_zb_radio_config_t :=
  { radio_mode := .RADIO_MODE_NATIVE }

/-- Source: `#define ESP_ZB_DEFAULT_HOST_CONFIG()`. -/
def ESP_ZB_DEFAULT_HOST_CONFIG : esp_zb_host_config_t :=
  { host_connection_mode := .HOST_CONNECTION_MODE_NONE }

/-! ## Data-model invariants -/

/-- Modelled from the spec: the stack maximum for the total length of a
manufacturer or model ZCL string ("typically 32 bytes"); the stack that fixes
it is missing. -/
def ZCL_STRING_MAX_LEN : Nat := 32

/-- Modelled from the spec: the stack-defined ceiling on `max_children`
("e.g., 10"); the stack that fixes it is missing. -/
def MAX_CHILDREN_CEILING : Nat := 10

/-- Modelled from the spec: the mask of the 16 Zigbee channels 11 to 26, bits
11..26 of a 32-bit word. -/
def ZIGBEE_CHANNELS_MASK : Nat := 0x07FFF800

/-- Bitwise complement of a 32-bit unsigned word. -/
def not32 (x : Nat) : Nat := 0xFFFFFFFF ^^^ (x % 2 ^ 32)

/-- Payload of a length-prefixed byte sequence: the bytes after the first. -/
def zcl_payload (raw : List UInt8) : List UInt8 := raw.tail

/-- Modelled from the spec: the ZclString invariant, declared length equals
the actual payload length and the total length is at most the stack maximum. -/
def zcl_well_formed (max_len : Nat) (raw : List UInt8) : Bool :=
  match raw with
  | [] => false
  | n :: payload => n.toNat == payload.length && (payload.length + 1) ≤ max_len

/-- Modelled from the spec: the ChannelMask invariant, at least one bit set
and every set bit among the channels 11 to 26. -/
def channel_mask_ok (mask : Nat) : Bool :=
  mask != 0 && (mask &&& not32 ZIGBEE_CHANNELS_MASK) == 0

/-- Modelled from the spec: the RoleParameters invariant. -/
def max_children_ok (max_children ceiling : Nat) : Bool :=
  max_children ≤ ceiling

/-- Modelled from the spec: a radio configuration declares an active
transport when it selects the native radio. -/
def radio_active (r : esp_zb_radio_config_t) : Bool :=
  r.radio_mode == .RADIO_MODE_NATIVE

/-- Modelled from the spec: a host configuration declares an active transport
when it selects a host connection. -/
def host_active (h : esp_zb_host_config_t) : Bool :=
  h.host_connection_mode != .HOST_CONNECTION_MODE_NONE

/-- Modelled from the spec: the RadioConfig / HostConfig invariant, exactly
one transport mode active. -/
def exactly_one_active (r : esp_zb_radio_config_t) (h : esp_zb_host_config_t) : Bool :=
  xor (radio_active r) (host_active h)

/-- Modelled from the spec: both configurations declare an active transport. -/
def conflicting_transport (r : esp_zb_radio_config_t) (h : esp_zb_host_config_t) : Bool :=
  radio_active r && host_active h

/-! ## Configuration assembly and bootstrap

The header holds no validation or assembly code; the validators, the
assembler and the bootstrap sequencer below follow the specification's
component contracts. -/

/-- Modelled from the spec: the `ConfigError` taxonomy; the validators that
raise it are missing from the sources. -/
inductive ConfigError
  | EmptyMask
  | ExceedsCeiling
  | LengthMismatch
  | TooLong
  | InvalidRoleParameter
  | ConflictingTransport
  | AlreadyHandedOff
  deriving DecidableEq, Repr

/-- Result of a fallible configuration step: a value or a `ConfigError`. -/
inductive Checked (α : Type)
  | ok (value : α)
  | error (e : ConfigError)
  deriving DecidableEq, Repr

/-- Modelled from the spec: `validate_channel_mask(raw) -> ChannelMask |
EmptyMask`, missing from the sources; a mask with zero bits set is rejected. -/
def validate_channel_mask (raw : Nat) : Checked Nat :=
  if raw = 0 then .error .EmptyMask else .ok raw

/-- Modelled from the spec: `validate_max_children(raw, ceiling) -> uint |
ExceedsCeiling`, missing from the sources; values above the ceiling are
rejected, the others pass through unchanged. -/
def validate_max_children (raw ceiling : Nat) : Checked Nat :=
  if raw > ceiling then .error .ExceedsCeiling else .ok raw

/-- Modelled from the spec: `validate_zcl_string(raw, max_len) -> ZclString |
LengthMismatch | TooLong`, missing from the sources; the declared length must
equal the payload length and the total length must not exceed `max_len`. -/
def validate_zcl_string (raw : List UInt8) (max_len : Nat) : Checked (List UInt8) :=
  match raw with
  | [] => .error .LengthMismatch
  | n :: payload =>
    if n.toNat ≠ payload.length then .error .LengthMismatch
    else if payload.length + 1 > max_len then .error .TooLong
    else .ok (n :: payload)

/-- Modelled from the spec: the compile-time defaults fed to the assembler,
one raw value per field of the configuration. -/
structure Defaults where
  channel_mask : Nat
  max_children : Nat
  install_code_policy : Bool
  manufacturer : List UInt8
  model : List UInt8
  radio : esp_zb_radio_config_t
  host : esp_zb_host_config_t
  deriving DecidableEq, Repr

/-- Modelled from the spec: the optional runtime/build overrides, one per
field; an absent override leaves the default in place. -/
structure Overrides where
  channel_mask : Option Nat
  max_children : Option Nat
  install_code_policy : Option Bool
  manufacturer : Option (List UInt8)
  model : Option (List UInt8)
  radio : Option esp_zb_radio_config_t
  host : Option esp_zb_host_config_t
  deriving DecidableEq, Repr

/-- No field overridden. -/
def no_overrides : Overrides :=
  { channel_mask := none, max_children := none, install_code_policy := none,
    manufacturer := none, model := none, radio := none, host := none }

/-- Modelled from the spec: field-by-field merge, the override wins. -/
def merge (d : Defaults) (o : Overrides) : Defaults :=
  { channel_mask := o.channel_mask.getD d.channel_mask
    max_children := o.max_children.getD d.max_children
    install_code_policy := o.install_code_policy.getD d.install_code_policy
    manufacturer := o.manufacturer.getD d.manufacturer
    model := o.model.getD d.model
    radio := o.radio.getD d.radio
    host := o.host.getD d.host }

/-- Modelled from the spec: the role parameters of the assembled
configuration, the role tag with the coordinator's two parameters (the spec
elides the parameters of the other roles). -/
structure RoleParameters where
  role : esp_zb_nwk_device_type_t
  max_children : Nat
  install_code_policy : Bool
  deriving DecidableEq, Repr

/-- Modelled from the spec: the assembled bundle, ChannelMask, RoleParameters,
two ZCL strings, RadioConfig and HostConfig. -/
structure GatewayConfig where
  channel_mask : Nat
  role_parameters : RoleParameters
  manufacturer : List UInt8
  model : List UInt8
  radio : esp_zb_radio_config_t
  host : esp_zb_host_config_t
  deriving DecidableEq, Repr

/-- Modelled from the spec: the field checks of the assembler on the merged
values, in the order of section 4.3: channel mask, role parameters,
manufacturer string, model string, and last the radio/host mode; the first
error is returned. -/
def assemble_merged (m : Defaults) (role : esp_zb_nwk_device_type_t) :
    Checked GatewayConfig :=
  match validate_channel_mask m.channel_mask with
  | .error e => .error e
  | .ok mask =>
    match validate_max_children m.max_children MAX_CHILDREN_CEILING with
    | .error e => .error e
    | .ok children =>
      match validate_zcl_string m.manufacturer ZCL_STRING_MAX_LEN with
      | .error e => .error e
      | .ok manufacturer =>
        match validate_zcl_string m.model ZCL_STRING_MAX_LEN with
        | .error e => .error e
        | .ok model =>
          if conflicting_transport m.radio m.host then .error .ConflictingTransport
          else .ok
            { channel_mask := mask
              role_parameters :=
                { role := role, max_children := children,
                  install_code_policy := m.install_code_policy }
              manufacturer := manufacturer
              model := model
              radio := m.radio
              host := m.host }

/-- Modelled from the spec: the place of the radio/host conflict check among
the assembler's checks.  The spec gives two readings and the sources hold no
assembler: section 4.3 lists radio/host mode last in the order of errors
(`after_fields`), section 8 lets conflicting transports fail with
`ConflictingTransport` whatever the other fields are (`before_fields`). -/
inductive TransportCheck
  | after_fields
  | before_fields
  deriving DecidableEq, Repr

/-- Modelled from the spec: `assemble(defaults, overrides, role_descriptor)`,
missing from the sources.  The overrides are merged over the defaults and the
merged values are checked; the place of the radio/host conflict check is the
parameter `pos`. -/
def assemble (pos : TransportCheck) (d : Defaults) (o : Overrides)
    (role : esp_zb_nwk_device_type_t) : Checked GatewayConfig :=
  let m := merge d o
  match pos with
  | .after_fields => assemble_merged m role
  | .before_fields =>
    if conflicting_transport m.radio m.host then .error .ConflictingTransport
    else assemble_merged m role

/-- The compile-time defaults of the header, for a given build target. -/
def header_defaults (CONFIG_IDF_TARGET : List UInt8) : Defaults :=
  { channel_mask := ESP_ZB_PRIMARY_CHANNEL_MASK
    max_children := ESP_ZB_ZC_CONFIG.nwk_cfg.zczr_cfg.max_children
    install_code_policy := ESP_ZB_ZC_CONFIG.install_code_policy
    manufacturer := MANUFACTURER_NAME
    model := MODEL_IDENTIFIER CONFIG_IDF_TARGET
    radio := ESP_ZB_DEFAULT_RADIO_CONFIG
    host := ESP_ZB_DEFAULT_HOST_CONFIG }

/-- Modelled from the spec: the states of the Bootstrap Sequencer. -/
inductive SequencerState
  | Unconfigured
  | Validating
  | Ready (cfg : GatewayConfig)
  | HandedOff (cfg : GatewayConfig)
  | Failed (e : ConfigError)
  deriving DecidableEq, Repr

/-- Modelled from the spec: the Bootstrap Sequencer, its state variable and
the configurations received so far by the external stack initialization entry
point, oldest first. -/
structure Sequencer where
  state : SequencerState
  stack_init_calls : List GatewayConfig
  deriving DecidableEq, Repr

/-- Modelled from the spec: sequencer start, `Unconfigured → Validating`
followed by `Validating → Ready` or `Validating → Failed` on the assembler's
result; in any other state nothing happens. -/
def Sequencer.start (s : Sequencer) (pos : TransportCheck) (d : Defaults) (o : Overrides)
    (role : esp_zb_nwk_device_type_t) : Sequencer :=
  match s.state with
  | .Unconfigured =>
    match assemble pos d o role with
    | .ok cfg => { s with state := .Ready cfg }
    | .error e => { s with state := .Failed e }
  | _ => s

/-- Modelled from the spec: the handoff, missing from the sources.  From
`Ready` the configuration is passed to the stack initialization entry point
and the state becomes `HandedOff`; from `HandedOff` the attempt fails with
`AlreadyHandedOff` and nothing changes.  The spec defines no handoff from the
other states (`none`). -/
def Sequencer.handoff (s : Sequencer) : Option (Checked Unit × Sequencer) :=
  match s.state with
  | .Ready cfg =>
    some (.ok (), { state := .HandedOff cfg, stack_init_calls := s.stack_init_calls ++ [cfg] })
  | .HandedOff _ => some (.error .AlreadyHandedOff, s)
  | _ => none

/-- Build target string of length 7 in lower case, as the ESP32-H2 tool chain
spells it. -/
def target_esp32h2 : List UInt8 := c_chars "esp32h2"

/-- Build target string of the scenario in the spec, in upper case. -/
def target_ESP32H2 : List UInt8 := c_chars "ESP32H2"

/-- Build target string of length 5. -/
def target_esp32 : List UInt8 := c_chars "esp32"

/-- Overrides that clear the channel mask and select a host-UART connection. -/
def overrides_empty_mask_host_uart : Overrides :=
  { no_overrides with
    channel_mask := some 0
    host := some { host_connection_mode := .HOST_CONNECTION_MODE_CLI_UART } }

/-- Overrides that only select a host-UART connection. -/
def overrides_host_uart : Overrides :=
  { no_overrides with
    host := some { host_connection_mode := .HOST_CONNECTION_MODE_CLI_UART } }


/-! ## ZCL strings of the header -/

/-- C1: `MANUFACTURER_NAME` is a well-formed ZCL string: its first byte is 9,
the bytes after it are exactly the 9 ASCII bytes of `ESPRESSIF`, and its total
length 10 is at most 32. -/
theorem manufacturer_name_well_formed :
    MANUFACTURER_NAME.head? = some 9 ∧
    zcl_payload MANUFACTURER_NAME = [0x45, 0x53, 0x50, 0x52, 0x45, 0x53, 0x53, 0x49, 0x46] ∧
    zcl_payload MANUFACTURER_NAME = c_chars "ESPRESSIF" ∧
    (zcl_payload MANUFACTURER_NAME).length = 9 ∧
    MANUFACTURER_NAME.length = 10 ∧
    MANUFACTURER_NAME.length ≤ 32 ∧
    zcl_well_formed 32 MANUFACTURER_NAME = true := by
  decide

/-- C2 (failing input): for the build target `esp32` the model identifier is
the byte 7 followed by 5 bytes, so its first byte is not the number of bytes
that follow it and the ZclString invariant fails. -/
theorem model_identifier_esp32_length_mismatch :
    MODEL_IDENTIFIER target_esp32 = [0x07, 0x65, 0x73, 0x70, 0x33, 0x32] ∧
    (MODEL_IDENTIFIER target_esp32).head? = some 7 ∧
    (zcl_payload (MODEL_IDENTIFIER target_esp32)).length = 5 ∧
    zcl_well_formed ZCL_STRING_MAX_LEN (MODEL_IDENTIFIER target_esp32) = false := by
  decide

/-- C10: for every build target `t` the length byte of `MODEL_IDENTIFIER` is
the constant 7 and the payload is `t`, so the ZclString invariant (declared
length equals payload length, total length at most 32) holds if and only if
`t` is exactly 7 bytes long. -/
theorem model_identifier_well_formed_iff (t : List UInt8) :
    (MODEL_IDENTIFIER t).head? = some 7 ∧
    zcl_payload (MODEL_IDENTIFIER t) = t ∧
    (zcl_well_formed ZCL_STRING_MAX_LEN (MODEL_IDENTIFIER t) = true ↔ t.length = 7) := by
  refine ⟨rfl, rfl, ?_⟩
  have h7 : (7 : UInt8).toNat = 7 := by decide
  simp only [zcl_well_formed, MODEL_IDENTIFIER, List.singleton_append, ZCL_STRING_MAX_LEN,
    Bool.and_eq_true, beq_iff_eq, decide_eq_true_eq, h7]
  omega

/-- Witness for C10: the target `esp32h2` has 7 bytes and gives a well-formed
model identifier. -/
theorem model_identifier_well_formed_iff_witness :
    target_esp32h2.length = 7 ∧
    zcl_well_formed ZCL_STRING_MAX_LEN (MODEL_IDENTIFIER target_esp32h2) = true :=
  ⟨by decide, (model_identifier_well_formed_iff target_esp32h2).2.2.2 (by decide)⟩

/-! ## Numeric constants and initializer macros -/

/-- C3: the default channel mask `(1l << 13)` does not overflow a 32-bit
`long`, equals 8192 as an unsigned integer, is non-zero, and has no bit set
outside the positions 11..26 of the 16 Zigbee channels (its only set bit is
bit 13), so it satisfies the ChannelMask invariant. -/
theorem primary_channel_mask_ok :
    shl_long 1 13 = some ESP_ZB_PRIMARY_CHANNEL_MASK ∧
    ESP_ZB_PRIMARY_CHANNEL_MASK < 2 ^ 31 ∧
    ESP_ZB_PRIMARY_CHANNEL_MASK % 2 ^ 32 = 8192 ∧
    ESP_ZB_PRIMARY_CHANNEL_MASK ≠ 0 ∧
    ESP_ZB_PRIMARY_CHANNEL_MASK &&& not32 0x07FFF800 = 0 ∧
    (∀ i, ESP_ZB_PRIMARY_CHANNEL_MASK.testBit i = decide (i = 13)) ∧
    channel_mask_ok ESP_ZB_PRIMARY_CHANNEL_MASK = true := by
  refine ⟨by decide, by decide, by decide, by decide, by decide, ?_, by decide⟩
  intro i
  have h : ESP_ZB_PRIMARY_CHANNEL_MASK = 2 ^ 13 := by decide
  rw [h, Nat.testBit_two_pow]
  by_cases hi : i = 13
  · simp [hi]
  · have : ¬ 13 = i := fun e => hi e.symm
    simp [hi, this]

/-- C4: the `max_children` carried by `ESP_ZB_ZC_CONFIG()` is
`MAX_CHILDREN = 10`; it satisfies the RoleParameters invariant for the stack
ceiling 10, on the boundary: `MAX_CHILDREN + 1` does not. -/
theorem zc_config_max_children_within_ceiling :
    ESP_ZB_ZC_CONFIG.nwk_cfg.zczr_cfg.max_children = MAX_CHILDREN ∧
    MAX_CHILDREN = 10 ∧
    MAX_CHILDREN_CEILING = 10 ∧
    max_children_ok ESP_ZB_ZC_CONFIG.nwk_cfg.zczr_cfg.max_children MAX_CHILDREN_CEILING = true ∧
    ESP_ZB_ZC_CONFIG.nwk_cfg.zczr_cfg.max_children = MAX_CHILDREN_CEILING ∧
    max_children_ok (MAX_CHILDREN + 1) MAX_CHILDREN_CEILING = false := by
  decide

/-- C5: the default transport configuration has exactly one mode active: the
radio default selects `RADIO_MODE_NATIVE` (active), the host default selects
`HOST_CONNECTION_MODE_NONE` (inactive), and the pair is not a conflicting
transport configuration. -/
theorem default_transport_exactly_one_active :
    ESP_ZB_DEFAULT_RADIO_CONFIG.radio_mode = .RADIO_MODE_NATIVE ∧
    ESP_ZB_DEFAULT_HOST_CONFIG.host_connection_mode = .HOST_CONNECTION_MODE_NONE ∧
    radio_active ESP_ZB_DEFAULT_RADIO_CONFIG = true ∧
    host_active ESP_ZB_DEFAULT_HOST_CONFIG = false ∧
    exactly_one_active ESP_ZB_DEFAULT_RADIO_CONFIG ESP_ZB_DEFAULT_HOST_CONFIG = true ∧
    conflicting_transport ESP_ZB_DEFAULT_RADIO_CONFIG ESP_ZB_DEFAULT_HOST_CONFIG = false := by
  decide

/-! ## Validators and sequencer -/

/-- C7: for every raw value and ceiling, `validate_max_children` fails with
`ExceedsCeiling` when the value is above the ceiling and otherwise succeeds
and returns the value unchanged. -/
theorem validate_max_children_spec (raw ceiling : Nat) :
    (raw > ceiling → validate_max_children raw ceiling = .error .ExceedsCeiling) ∧
    (raw ≤ ceiling → validate_max_children raw ceiling = .ok raw) := by
  unfold validate_max_children
  constructor
  · intro h
    rw [if_pos h]
  · intro h
    rw [if_neg (Nat.not_lt.mpr h)]

/-- Witness for C7: 11 and the override 15 exceed the ceiling 10 and are
rejected, 10 is on the ceiling and passes through. -/
theorem validate_max_children_spec_witness :
    validate_max_children 11 10 = .error .ExceedsCeiling ∧
    validate_max_children 15 10 = .error .ExceedsCeiling ∧
    validate_max_children 10 10 = .ok 10 :=
  ⟨(validate_max_children_spec 11 10).1 (by decide),
   (validate_max_children_spec 15 10).1 (by decide),
   (validate_max_children_spec 10 10).2 (by decide)⟩

/-- C8: from `Ready` the first handoff succeeds, moves the sequencer to
`HandedOff` and passes the configuration to the stack (one more call, with
that configuration); a second handoff fails with `AlreadyHandedOff` and leaves
the state and the calls received by the stack unchanged, so over both attempts
the configuration is handed off exactly once. -/
theorem handoff_exactly_once (cfg : GatewayConfig) (calls : List GatewayConfig) :
    Sequencer.handoff { state := .Ready cfg, stack_init_calls := calls } =
      some (.ok (), { state := .HandedOff cfg, stack_init_calls := calls ++ [cfg] }) ∧
    Sequencer.handoff { state := .HandedOff cfg, stack_init_calls := calls ++ [cfg] } =
      some (.error .AlreadyHandedOff,
        { state := .HandedOff cfg, stack_init_calls := calls ++ [cfg] }) ∧
    (calls ++ [cfg]).length = calls.length + 1 := by
  refine ⟨rfl, rfl, ?_⟩
  simp

/-! ## Assembling the header's defaults -/

theorem validate_zcl_string_model_identifier (t : List UInt8) :
    validate_zcl_string (MODEL_IDENTIFIER t) ZCL_STRING_MAX_LEN =
      if t.length = 7 then .ok (MODEL_IDENTIFIER t) else .error .LengthMismatch := by
  have h7 : (7 : UInt8).toNat = 7 := by decide
  simp only [validate_zcl_string, MODEL_IDENTIFIER, List.singleton_append, h7,
    ZCL_STRING_MAX_LEN]
  by_cases h : t.length = 7
  · simp [h]
  · have h' : ¬ 7 = t.length := fun e => h e.symm
    simp [h, h']

theorem assemble_merged_header_defaults (t : List UInt8) (role : esp_zb_nwk_device_type_t) :
    assemble_merged (header_defaults t) role =
      if t.length = 7 then
        .ok
          { channel_mask := 8192
            role_parameters := { role := role, max_children := 10, install_code_policy := false }
            manufacturer := MANUFACTURER_NAME
            model := MODEL_IDENTIFIER t
            radio := ESP_ZB_DEFAULT_RADIO_CONFIG
            host := ESP_ZB_DEFAULT_HOST_CONFIG }
      else .error .LengthMismatch := by
  have h1 : validate_channel_mask (header_defaults t).channel_mask = .ok 8192 := by
    show validate_channel_mask ESP_ZB_PRIMARY_CHANNEL_MASK = _
    decide
  have h2 : validate_max_children (header_defaults t).max_children MAX_CHILDREN_CEILING =
      .ok 10 := by
    show validate_max_children MAX_CHILDREN MAX_CHILDREN_CEILING = _
    decide
  have h3 : validate_zcl_string (header_defaults t).manufacturer ZCL_STRING_MAX_LEN =
      .ok MANUFACTURER_NAME := by
    show validate_zcl_string MANUFACTURER_NAME ZCL_STRING_MAX_LEN = _
    decide
  have h4 : validate_zcl_string (header_defaults t).model ZCL_STRING_MAX_LEN =
      if t.length = 7 then .ok (MODEL_IDENTIFIER t) else .error .LengthMismatch :=
    validate_zcl_string_model_identifier t
  have hc : conflicting_transport (header_defaults t).radio (header_defaults t).host = false :=
    rfl
  unfold assemble_merged
  simp only [h1, h2, h3, h4, hc]
  by_cases h : t.length = 7
  · simp only [if_pos h]
    rfl
  · simp only [if_neg h]

/-- With no overrides the assembler accepts the header's defaults exactly when
the build target is 7 bytes long, wherever the radio/host check stands;
otherwise the model string is rejected with `LengthMismatch`. -/
theorem assemble_header_defaults (pos : TransportCheck) (t : List UInt8)
    (role : esp_zb_nwk_device_type_t) :
    assemble pos (header_defaults t) no_overrides role =
      if t.length = 7 then
        .ok
          { channel_mask := 8192
            role_parameters := { role := role, max_children := 10, install_code_policy := false }
            manufacturer := MANUFACTURER_NAME
            model := MODEL_IDENTIFIER t
            radio := ESP_ZB_DEFAULT_RADIO_CONFIG
            host := ESP_ZB_DEFAULT_HOST_CONFIG }
      else .error .LengthMismatch := by
  have hm : merge (header_defaults t) no_overrides = header_defaults t := rfl
  have hc : conflicting_transport (header_defaults t).radio (header_defaults t).host = false :=
    rfl
  cases pos with
  | after_fields =>
    show assemble_merged (merge (header_defaults t) no_overrides) role = _
    rw [hm]
    exact assemble_merged_header_defaults t role
  | before_fields =>
    show (if conflicting_transport (merge (header_defaults t) no_overrides).radio
        (merge (header_defaults t) no_overrides).host = true then
          Checked.error ConfigError.ConflictingTransport
        else assemble_merged (merge (header_defaults t) no_overrides) role) = _
    rw [hm, hc]
    simp only [Bool.false_eq_true, if_false]
    exact assemble_merged_header_defaults t role

/-- C6 (counterexample): for the build target `esp32h2` the header's defaults
do not have the fields of the scenario, and the configuration assembled from
them with no overrides does not either: the model payload is the lower-case
target string and not `ESP32H2`. -/
theorem header_defaults_model_payload_not_ESP32H2 :
    ¬ (ESP_ZB_ZC_CONFIG.esp_zb_role = .ESP_ZB_DEVICE_TYPE_COORDINATOR ∧
       (header_defaults target_esp32h2).channel_mask = 1 <<< 13 ∧
       (header_defaults target_esp32h2).max_children = 10 ∧
       (header_defaults target_esp32h2).install_code_policy = false ∧
       zcl_payload (header_defaults target_esp32h2).manufacturer = c_chars "ESPRESSIF" ∧
       zcl_payload (header_defaults target_esp32h2).model = c_chars "ESP32H2") ∧
    (∃ cfg, assemble .after_fields (header_defaults target_esp32h2) no_overrides
        ESP_ZB_ZC_CONFIG.esp_zb_role = .ok cfg ∧
      zcl_payload cfg.model = c_chars "esp32h2" ∧
      zcl_payload cfg.model ≠ c_chars "ESP32H2") ∧
    (∃ cfg, assemble .before_fields (header_defaults target_esp32h2) no_overrides
        ESP_ZB_ZC_CONFIG.esp_zb_role = .ok cfg ∧
      zcl_payload cfg.model = c_chars "esp32h2" ∧
      zcl_payload cfg.model ≠ c_chars "ESP32H2") := by
  have key : ∀ pos : TransportCheck,
      ∃ cfg, assemble pos (header_defaults target_esp32h2) no_overrides
          ESP_ZB_ZC_CONFIG.esp_zb_role = .ok cfg ∧
        zcl_payload cfg.model = c_chars "esp32h2" ∧
        zcl_payload cfg.model ≠ c_chars "ESP32H2" := by
    intro pos
    refine
      ⟨{ channel_mask := 8192
         role_parameters :=
           { role := .ESP_ZB_DEVICE_TYPE_COORDINATOR, max_children := 10,
             install_code_policy := false }
         manufacturer := MANUFACTURER_NAME
         model := MODEL_IDENTIFIER target_esp32h2
         radio := ESP_ZB_DEFAULT_RADIO_CONFIG
         host := ESP_ZB_DEFAULT_HOST_CONFIG }, ?_, by decide, by decide⟩
    cases pos <;> decide
  exact ⟨by decide, key .after_fields, key .before_fields⟩

/-- C6 (amended): for every build target `t` of 7 bytes and either place of
the radio/host check, assembling the header's compile-time defaults with no
overrides and the role of `ESP_ZB_ZC_CONFIG()` succeeds, and the assembled
configuration has role coordinator, channel mask `1 << 13`, `max_children` 10,
install-code policy false, manufacturer payload `ESPRESSIF`, model payload `t`
itself, and the default radio and host configurations; `ESP_ZB_ZC_CONFIG()`
sets the coordinator role, `INSTALLCODE_POLICY_ENABLE = false` and
`MAX_CHILDREN = 10`. -/
theorem assemble_header_defaults_fields (pos : TransportCheck) (t : List UInt8)
    (h : t.length = 7) :
    (∃ cfg, assemble pos (header_defaults t) no_overrides ESP_ZB_ZC_CONFIG.esp_zb_role =
        .ok cfg ∧
      cfg.role_parameters.role = .ESP_ZB_DEVICE_TYPE_COORDINATOR ∧
      cfg.channel_mask = 1 <<< 13 ∧
      cfg.role_parameters.max_children = 10 ∧
      cfg.role_parameters.install_code_policy = false ∧
      cfg.manufacturer = MANUFACTURER_NAME ∧
      zcl_payload cfg.manufacturer = c_chars "ESPRESSIF" ∧
      cfg.model = MODEL_IDENTIFIER t ∧
      zcl_payload cfg.model = t ∧
      cfg.radio = ESP_ZB_DEFAULT_RADIO_CONFIG ∧
      cfg.host = ESP_ZB_DEFAULT_HOST_CONFIG) ∧
    ESP_ZB_ZC_CONFIG.esp_zb_role = .ESP_ZB_DEVICE_TYPE_COORDINATOR ∧
    ESP_ZB_ZC_CONFIG.install_code_policy = INSTALLCODE_POLICY_ENABLE ∧
    INSTALLCODE_POLICY_ENABLE = false ∧
    ESP_ZB_ZC_CONFIG.nwk_cfg.zczr_cfg.max_children = MAX_CHILDREN ∧
    MAX_CHILDREN = 10 := by
  have ha := assemble_header_defaults pos t ESP_ZB_ZC_CONFIG.esp_zb_role
  rw [if_pos h] at ha
  have hm : zcl_payload MANUFACTURER_NAME = c_chars "ESPRESSIF" := by decide
  exact ⟨⟨_, ha, rfl, rfl, rfl, rfl, rfl, hm, rfl, rfl, rfl, rfl⟩, rfl, rfl, rfl, rfl, rfl⟩

/-- Witness for C6: the target `ESP32H2` of the spec's scenario has 7 bytes,
and with the radio/host check last the assembled configuration has exactly
the scenario's fields, model payload `ESP32H2` included. -/
theorem assemble_header_defaults_fields_witness :
    target_ESP32H2.length = 7 ∧
    (∃ cfg, assemble .after_fields (header_defaults target_ESP32H2) no_overrides
        ESP_ZB_ZC_CONFIG.esp_zb_role = .ok cfg ∧
      cfg.role_parameters.role = .ESP_ZB_DEVICE_TYPE_COORDINATOR ∧
      cfg.channel_mask = 1 <<< 13 ∧
      cfg.role_parameters.max_children = 10 ∧
      cfg.role_parameters.install_code_policy = false ∧
      cfg.manufacturer = MANUFACTURER_NAME ∧
      zcl_payload cfg.manufacturer = c_chars "ESPRESSIF" ∧
      cfg.model = MODEL_IDENTIFIER target_ESP32H2 ∧
      zcl_payload cfg.model = target_ESP32H2 ∧
      cfg.radio = ESP_ZB_DEFAULT_RADIO_CONFIG ∧
      cfg.host = ESP_ZB_DEFAULT_HOST_CONFIG) :=
  ⟨by decide,
   (assemble_header_defaults_fields .after_fields target_ESP32H2 (by decide)).1⟩

/-! ## Conflicting transports

The two readings of the place of the radio/host check agree whenever the
transports do not conflict; on a conflict they differ only in which error is
reported when an earlier field is invalid as well. -/

theorem assemble_merged_ok_not_conflicting {m : Defaults}
    {role : esp_zb_nwk_device_type_t} {cfg : GatewayConfig}
    (h : assemble_merged m role = .ok cfg) :
    conflicting_transport m.radio m.host = false := by
  unfold assemble_merged at h
  split at h
  · cases h
  · split at h
    · cases h
    · split at h
      · cases h
      · split at h
        · cases h
        · split at h
          · cases h
          · next hc => simpa using hc

/-- Without a transport conflict the place of the radio/host check does not
change the assembler's result. -/
theorem assemble_positions_agree (d : Defaults) (o : Overrides)
    (role : esp_zb_nwk_device_type_t)
    (h : conflicting_transport (merge d o).radio (merge d o).host = false) :
    assemble .before_fields d o role = assemble .after_fields d o role := by
  show (if conflicting_transport (merge d o).radio (merge d o).host = true then
      Checked.error ConfigError.ConflictingTransport
    else assemble_merged (merge d o) role) = assemble_merged (merge d o) role
  rw [h]
  simp only [Bool.false_eq_true, if_false]

/-- With conflicting transports the assembler returns no configuration,
wherever the radio/host check stands. -/
theorem assemble_conflict_not_ok (pos : TransportCheck) (d : Defaults) (o : Overrides)
    (role : esp_zb_nwk_device_type_t)
    (h : conflicting_transport (merge d o).radio (merge d o).host = true)
    (cfg : GatewayConfig) : assemble pos d o role ≠ .ok cfg := by
  intro ha
  cases pos with
  | after_fields =>
    have hn := assemble_merged_ok_not_conflicting ha
    rw [h] at hn
    cases hn
  | before_fields =>
    have ha' : (if conflicting_transport (merge d o).radio (merge d o).host = true then
        Checked.error ConfigError.ConflictingTransport
      else assemble_merged (merge d o) role) = .ok cfg := ha
    rw [if_pos h] at ha'
    cases ha'

/-- With the radio/host check first, conflicting transports fail with
`ConflictingTransport` whatever the other fields are. -/
theorem assemble_before_fields_conflict (d : Defaults) (o : Overrides)
    (role : esp_zb_nwk_device_type_t)
    (h : conflicting_transport (merge d o).radio (merge d o).host = true) :
    assemble .before_fields d o role = .error .ConflictingTransport := by
  show (if conflicting_transport (merge d o).radio (merge d o).host = true then
      Checked.error ConfigError.ConflictingTransport
    else assemble_merged (merge d o) role) = _
  rw [if_pos h]

/-- With the radio/host check last, an empty channel mask next to conflicting
transports is reported as `EmptyMask`; with valid fields the conflict is
reported as `ConflictingTransport`. -/
theorem assemble_after_fields_conflict_examples :
    conflicting_transport
      (merge (header_defaults target_esp32h2) overrides_empty_mask_host_uart).radio
      (merge (header_defaults target_esp32h2) overrides_empty_mask_host_uart).host = true ∧
    assemble .after_fields (header_defaults target_esp32h2) overrides_empty_mask_host_uart
      .ESP_ZB_DEVICE_TYPE_COORDINATOR = .error .EmptyMask ∧
    assemble .before_fields (header_defaults target_esp32h2) overrides_empty_mask_host_uart
      .ESP_ZB_DEVICE_TYPE_COORDINATOR = .error .ConflictingTransport ∧
    assemble .after_fields (header_defaults target_esp32h2) overrides_host_uart
      .ESP_ZB_DEVICE_TYPE_COORDINATOR = .error .ConflictingTransport := by
  decide

/-- Scenario of the specification: with `max_children` overridden to 15 the
assembler fails with `ExceedsCeiling`, the sequencer goes to `Failed`, and no
handoff takes place. -/
theorem start_override_15_fails (pos : TransportCheck) :
    assemble pos (header_defaults target_esp32h2)
      { no_overrides with max_children := some 15 } .ESP_ZB_DEVICE_TYPE_COORDINATOR =
      .error .ExceedsCeiling ∧
    Sequencer.start { state := .Unconfigured, stack_init_calls := [] } pos
      (header_defaults target_esp32h2) { no_overrides with max_children := some 15 }
      .ESP_ZB_DEVICE_TYPE_COORDINATOR =
      { state := .Failed .ExceedsCeiling, stack_init_calls := [] } ∧
    Sequencer.handoff { state := .Failed .ExceedsCeiling, stack_init_calls := [] } = none := by
  cases pos <;> decide

end ZbGateway
